import Mathlib

/-!
Verification of the WhatsApp message-processing service against its
natural-language specification.

The development shallowly embeds the relevant parts of the source:

* `services/queue.py` — inbound stream, dead-letter queue (DLQ), auto-heal,
  outbound scheduling with exponential backoff;
* `worker.py` — the per-message worker transaction and the scheduled-retry
  promotion loop;
* `services/openapi_bridge.py` — the HTTP request loop with 401
  refresh-and-retry;
* `services/tool_registry.py` — snapshot persistence/loading and the
  embedding-based semantic search, including cosine similarity.

Modelling conventions: Redis collections are plain Lean lists; Redis string
fields that hold decimal integers (`retry_count`) are carried as `Nat`,
since Python's `str`/`int` conversions round-trip losslessly for the values
involved, and an unparsable dead-letter record is modelled by the
`RawDlq.corrupt` constructor. IEEE floats are modelled as real numbers
(the floating-point guard structure of the code is preserved exactly).
Fallible effects (a Redis command raising) appear as explicit `Bool`
success parameters or `Except` results.
-/

namespace WhatsappService

/-! ## Queue data model (services/queue.py) -/

/-- A message payload on the inbound stream, as built by `enqueue_inbound`
(`queue.py` lines 56-62). The stream stores `retry_count` as a decimal
string; the model carries the numeric value. -/
structure Payload where
  sender : String
  text : String
  message_id : String
  timestamp : String
  retry_count : Nat
deriving DecidableEq, Repr

/-- A dead-letter record as built by `store_inbound_dlq`
(`queue.py` lines 73-77): the failed payload wrapped with failure metadata. -/
structure DlqEntry where
  original_payload : Payload
  error : String
  failed_at : String
deriving DecidableEq, Repr

/-- A raw element of the `dlq:inbound` Redis list: either a well-formed
serialized `DlqEntry`, or bytes that `orjson.loads` cannot parse. -/
inductive RawDlq where
  | good (entry : DlqEntry)
  | corrupt (raw : String)
deriving DecidableEq, Repr

/-- The Redis state touched by the inbound pipeline: the inbound stream
(entry id and fields), the consumer-group pending ids, the two dead-letter
lists, the TTL set on the permanent list key, and the next fresh stream id. -/
structure SysState where
  stream : List (Nat × Payload)
  pendingIds : List Nat
  dlqInbound : List RawDlq
  dlqPermanent : List RawDlq
  permanentTtl : Option Nat
  nextId : Nat
deriving DecidableEq, Repr

/-- Redis `XADD`: append an entry to the inbound stream under a fresh id. -/
def xadd (st : SysState) (p : Payload) : SysState :=
  { st with stream := st.stream ++ [(st.nextId, p)], nextId := st.nextId + 1 }

/-- `QueueService.enqueue_inbound` (`queue.py` lines 45-67): build the field
map with `retry_count = "0"` and `XADD` it to the inbound stream. -/
def enqueue_inbound (st : SysState) (sender text message_id now : String) : SysState :=
  xadd st
    { sender := sender, text := text, message_id := message_id,
      timestamp := now, retry_count := 0 }

/-- Redis `XACK`: remove the entry id from the consumer group's pending list. -/
def xack (st : SysState) (msgId : Nat) : SysState :=
  { st with pendingIds := st.pendingIds.filter (fun i => i != msgId) }

/-- Redis `XDEL`: delete the entry from the stream. -/
def xdel (st : SysState) (msgId : Nat) : SysState :=
  { st with stream := st.stream.filter (fun e => e.1 != msgId) }

/-- The metadata wrapper built by `store_inbound_dlq` (`queue.py` lines 73-77). -/
def mk_dlq_entry (payload : Payload) (error : String) (now : String) : DlqEntry :=
  { original_payload := payload, error := error, failed_at := now }

/-- `QueueService.store_inbound_dlq` (`queue.py` lines 69-84): wrap the payload
with failure metadata and `RPUSH` it onto `dlq:inbound`. The function body has
no exception handler, so a failing `RPUSH` (modelled by `storeOk = false`)
propagates to the caller; this is modelled by the `Except.error` result. -/
def store_inbound_dlq (storeOk : Bool) (dlq : List RawDlq) (payload : Payload)
    (error : String) (now : String) : Except String (List RawDlq) :=
  if storeOk then Except.ok (dlq ++ [RawDlq.good (mk_dlq_entry payload error now)])
  else Except.error "redis unreachable"

/-- Observable Redis effects of one worker transaction, in issue order. -/
inductive WEvent where
  | storeDlq (payload : Payload) (error : String)
  | ackEv (msgId : Nat)
  | delEv (msgId : Nat)
deriving DecidableEq, Repr

/-- `Worker._process_single_message_transaction` (`worker.py` lines 261-289).
The business-logic block (rate limiting plus `_handle_business_logic`) is
abstracted by its outcome `business`; `storeOk` says whether the DLQ `RPUSH`
inside the handler succeeds. On success the entry is acked and deleted; on
any exception the payload is first pushed to the dead-letter list and the
entry is then acked and deleted. If the DLQ push itself raises, the
exception propagates out of the method before any ack. The result carries
the new state, the trace of Redis effects, and the method's own outcome. -/
def process_single_message_transaction (st : SysState) (msgId : Nat) (payload : Payload)
    (business : Except String Unit) (storeOk : Bool) (now : String) :
    (SysState × List WEvent) × Except String Unit :=
  match business with
  | Except.ok _ =>
      ((xdel (xack st msgId) msgId, [WEvent.ackEv msgId, WEvent.delEv msgId]), Except.ok ())
  | Except.error e =>
      match store_inbound_dlq storeOk st.dlqInbound payload e now with
      | Except.ok dlq2 =>
          ((xdel (xack { st with dlqInbound := dlq2 } msgId) msgId,
            [WEvent.storeDlq payload e, WEvent.ackEv msgId, WEvent.delEv msgId]),
           Except.ok ())
      | Except.error ex => ((st, []), Except.error ex)

/-! ## DLQ auto-heal (services/queue.py lines 86-128) -/

/-- One iteration of the `auto_heal_dlq` loop: `LPOP` the next raw record
(returning `false` when the list is empty, which breaks the loop). A record
that fails to parse goes to the permanent list unchanged; a parsed record
with `retry_count >= 3` goes to the permanent list and refreshes the 14-day
TTL of that key; otherwise the payload is re-queued onto the inbound stream
with `retry_count` incremented by one. -/
def heal_step (st : SysState) : SysState × Bool :=
  match st.dlqInbound with
  | [] => (st, false)
  | raw :: rest =>
      let st1 := { st with dlqInbound := rest }
      match raw with
      | RawDlq.corrupt _ =>
          ({ st1 with dlqPermanent := st1.dlqPermanent ++ [raw] }, true)
      | RawDlq.good e =>
          if 3 ≤ e.original_payload.retry_count then
            ({ st1 with dlqPermanent := st1.dlqPermanent ++ [raw],
                        permanentTtl := some (86400 * 14) }, true)
          else
            (xadd st1
              { e.original_payload with
                  retry_count := e.original_payload.retry_count + 1 }, true)

/-- The bounded loop of `auto_heal_dlq`: up to `n` iterations, stopping
early as soon as `LPOP` finds the dead-letter list empty. -/
def auto_heal_loop : Nat → SysState → SysState
  | 0, st => st
  | n + 1, st =>
      match heal_step st with
      | (st2, true) => auto_heal_loop n st2
      | (st2, false) => st2

/-- `QueueService.auto_heal_dlq` (`queue.py` lines 86-128): process up to 10
dead-letter records per invocation. -/
def auto_heal_dlq (st : SysState) : SysState :=
  auto_heal_loop 10 st

/-- Classifier used to state what `auto_heal_dlq` does: a raw record lands in
the permanent list exactly when it is unparsable or its retry count is at
least 3. -/
def heal_target (raw : RawDlq) : Bool :=
  match raw with
  | RawDlq.corrupt _ => true
  | RawDlq.good e => decide (3 ≤ e.original_payload.retry_count)

/-- Classifier: a parsed record with retry count at least 3 is promoted to
permanent storage (this is the only case that refreshes the 14-day TTL). -/
def heal_promote (raw : RawDlq) : Bool :=
  match raw with
  | RawDlq.corrupt _ => false
  | RawDlq.good e => decide (3 ≤ e.original_payload.retry_count)

/-- Classifier: the payload a raw record is re-queued with, when it is
parsable and its retry count is below 3. -/
def heal_requeue (raw : RawDlq) : Option Payload :=
  match raw with
  | RawDlq.corrupt _ => none
  | RawDlq.good e =>
      if 3 ≤ e.original_payload.retry_count then none
      else some { e.original_payload with
                    retry_count := e.original_payload.retry_count + 1 }

/-- Full characterisation of the auto-heal loop, proved by induction on the
iteration budget. -/
theorem auto_heal_loop_spec (n : Nat) (st : SysState) :
    (auto_heal_loop n st).dlqInbound = st.dlqInbound.drop n
    ∧ (auto_heal_loop n st).dlqPermanent
        = st.dlqPermanent ++ (st.dlqInbound.take n).filter heal_target
    ∧ (auto_heal_loop n st).stream.map Prod.snd
        = st.stream.map Prod.snd ++ (st.dlqInbound.take n).filterMap heal_requeue
    ∧ (auto_heal_loop n st).permanentTtl
        = (if (st.dlqInbound.take n).any heal_promote then some (86400 * 14)
           else st.permanentTtl) := by
  induction n generalizing st with
  | zero => simp [auto_heal_loop]
  | succ n ih =>
    match hdlq : st.dlqInbound with
    | [] =>
        simp [auto_heal_loop, heal_step, hdlq]
    | raw :: rest =>
      match raw with
      | RawDlq.corrupt s =>
          have h := ih { st with dlqInbound := rest,
                                 dlqPermanent := st.dlqPermanent ++ [RawDlq.corrupt s] }
          simp only [auto_heal_loop, heal_step, hdlq]
          refine ⟨?_, ?_, ?_, ?_⟩
          · rw [h.1]; simp
          · rw [h.2.1]; simp [heal_target]
          · rw [h.2.2.1]; simp [heal_requeue]
          · rw [h.2.2.2]; simp [heal_promote]
      | RawDlq.good e =>
        by_cases hrc : 3 ≤ e.original_payload.retry_count
        · have h := ih { st with dlqInbound := rest,
                                 dlqPermanent := st.dlqPermanent ++ [RawDlq.good e],
                                 permanentTtl := some (86400 * 14) }
          simp only [auto_heal_loop, heal_step, hdlq, if_pos hrc]
          refine ⟨?_, ?_, ?_, ?_⟩
          · rw [h.1]; simp
          · rw [h.2.1]; simp [heal_target, hrc]
          · rw [h.2.2.1]; simp [heal_requeue, hrc]
          · rw [h.2.2.2]; simp [heal_promote, hrc]
        · have h := ih (xadd { st with dlqInbound := rest }
              { e.original_payload with
                  retry_count := e.original_payload.retry_count + 1 })
          simp only [auto_heal_loop, heal_step, hdlq, if_neg hrc]
          refine ⟨?_, ?_, ?_, ?_⟩
          · rw [h.1]; simp [xadd]
          · rw [h.2.1]; simp [xadd, heal_target, hrc]
          · rw [h.2.2.1]; simp [xadd, heal_requeue, hrc]
          · rw [h.2.2.2]; simp [xadd, heal_promote, hrc]

/-! ## Outbound queue and retry scheduling (services/queue.py lines 134-181,
worker.py lines 510-530) -/

/-- An outbound message payload as built by `QueueService.enqueue`
(`queue.py` lines 147-152). The Redis sorted set stores the orjson
serialisation of this dict; since serialisation is injective on these
records, the model uses the record itself as the set member. -/
structure OutPayload where
  «to» : String
  text : String
  cid : String
  attempts : Nat
deriving DecidableEq, Repr

/-- Redis `ZADD`: insert a member with a score, replacing any previous score
for the same member. -/
def zadd (zs : List (OutPayload × ℚ)) (member : OutPayload) (score : ℚ) :
    List (OutPayload × ℚ) :=
  zs.filter (fun x => x.1 != member) ++ [(member, score)]

/-- Score of a member in the modelled sorted set, if present. -/
def zscore (zs : List (OutPayload × ℚ)) (member : OutPayload) : Option ℚ :=
  (zs.find? (fun x => x.1 == member)).map Prod.snd

/-- `QueueService.schedule_retry` (`queue.py` lines 159-181): increment
`attempts`; if the incremented value reaches 5, log and drop; otherwise
insert the payload (with the incremented value stored) into the
`schedule_retry` sorted set, scored by now plus the exponential-backoff
delay of `2 ^ attempts` seconds. -/
def schedule_retry (zs : List (OutPayload × ℚ)) (now : ℚ) (payload : OutPayload) :
    List (OutPayload × ℚ) :=
  let attempts := payload.attempts + 1
  if 5 ≤ attempts then zs
  else
    let delay : ℚ := 2 ^ attempts
    let execute_at := now + delay
    zadd zs { payload with attempts := attempts } execute_at

/-- Redis `ZRANGEBYSCORE key mn mx LIMIT 0 num`: the members whose score lies
in `[mn, mx]`, in score order, truncated to `num`. -/
def zrangebyscore (zs : List (OutPayload × ℚ)) (mn mx : ℚ) (num : Nat) :
    List OutPayload :=
  ((List.insertionSort (fun x y => x.2 ≤ y.2)
      (zs.filter (fun x => decide (mn ≤ x.2) && decide (x.2 ≤ mx)))).map Prod.fst).take num

/-- Redis `ZREM`: remove a member, reporting whether it was present. -/
def zrem (zs : List (OutPayload × ℚ)) (member : OutPayload) :
    List (OutPayload × ℚ) × Bool :=
  (zs.filter (fun x => x.1 != member), zs.any (fun x => x.1 == member))

/-- `Worker._process_retries` (`worker.py` lines 510-530): read the first
scheduled entry whose score is at most `now` (from the `view` the
`ZRANGEBYSCORE` round trip observed), then `ZREM` it from the current set
state. Only if the removal reports the member was still present is the
payload re-enqueued to the outbound queue (returned as `some`); a lost
race yields `none`. -/
def process_retries (view current : List (OutPayload × ℚ)) (now : ℚ) :
    List (OutPayload × ℚ) × Option OutPayload :=
  match zrangebyscore view 0 now 1 with
  | [] => (current, none)
  | t :: _ =>
      match zrem current t with
      | (cur2, true) => (cur2, some t)
      | (cur2, false) => (cur2, none)

/-! ## Remote-call gateway (services/openapi_bridge.py lines 321-406) -/

/-- Outcome of one HTTP attempt inside `_execute_request`: a 2xx response
with a body, a response with an explicit status code, a timeout, or any
other exception raised by the client. -/
inductive HttpResult where
  | ok (body : String)
  | status (code : Nat) (body : String)
  | timeout
  | exn (msg : String)
deriving DecidableEq, Repr

/-- Result of `_execute_request`: a parsed success body, or the structured
error dict (with the status code when one was received). -/
inductive ReqOutcome where
  | success (body : String)
  | errorResult (status : Option Nat) (msg : String)
deriving DecidableEq, Repr

/-- `max_retries` in `_execute_request` (`openapi_bridge.py` line 329). -/
def max_retries : Nat := 2

/-- The attempt loop of `OpenAPIGateway._execute_request`
(`openapi_bridge.py` lines 331-406), with the response of each attempt
supplied by `responses`. A 401 on an attempt below `max_retries` invalidates
and refreshes the token (counted in the second component) and retries; any
other status of at least 400 — including a 401 on the final attempt — returns
the structured error; timeouts and other exceptions retry without refreshing
until the final attempt. The fuel argument mirrors `range(max_retries + 1)`. -/
def execute_request_from (responses : Nat → HttpResult) :
    Nat → Nat → Nat → ReqOutcome × Nat
  | 0, _, refreshes => (ReqOutcome.errorResult none "Max retries exceeded", refreshes)
  | fuel + 1, attempt, refreshes =>
      match responses attempt with
      | HttpResult.ok body => (ReqOutcome.success body, refreshes)
      | HttpResult.status code body =>
          if code = 401 ∧ attempt < max_retries then
            execute_request_from responses fuel (attempt + 1) (refreshes + 1)
          else if 400 ≤ code then (ReqOutcome.errorResult (some code) body, refreshes)
          else (ReqOutcome.success body, refreshes)
      | HttpResult.timeout =>
          if attempt < max_retries then
            execute_request_from responses fuel (attempt + 1) refreshes
          else (ReqOutcome.errorResult none "Timeout - pokusajte ponovno", refreshes)
      | HttpResult.exn msg =>
          if attempt < max_retries then
            execute_request_from responses fuel (attempt + 1) refreshes
          else (ReqOutcome.errorResult none msg, refreshes)

/-- `OpenAPIGateway._execute_request`: run the attempt loop from attempt 0
with no refreshes performed yet. Returns the outcome together with the total
number of token refresh-and-retry rounds performed. -/
def execute_request (responses : Nat → HttpResult) : ReqOutcome × Nat :=
  execute_request_from responses (max_retries + 1) 0 0

/-! ## Registry snapshot persistence (services/tool_registry.py lines 549-670) -/

/-- Content of a snapshot file on disk: either bytes that `json.load`
rejects, or a parsed document whose `tools` and `embeddings` members are
present as maps (`none` models a document where the member is missing or
not a dict, failing the structure validation of `_load_cache_file`).
Tool metadata dicts are abstracted to opaque `String` payloads; embedding
vectors to rational lists. The `version`, `timestamp` and `checksum`
members are not read back by the loader and are elided. -/
inductive CacheDoc where
  | corrupt
  | doc (tools : Option (List (String × String)))
        (embeddings : Option (List (String × List ℚ)))
deriving DecidableEq, Repr

/-- The two snapshot locations on disk; `none` models an absent file. -/
structure FileSys where
  cacheFile : Option CacheDoc
  backupFile : Option CacheDoc
deriving DecidableEq, Repr

/-- The registry's in-memory maps (`tools_map`, `embeddings_map`), as
insertion-ordered association lists. -/
structure RegMaps where
  tools_map : List (String × String)
  embeddings_map : List (String × List ℚ)
deriving DecidableEq, Repr

/-- Membership test on the tools map (`op_id not in self.tools_map`). -/
def hasKey (m : List (String × String)) (k : String) : Bool :=
  m.any (fun x => x.1 == k)

/-- The merge loop of `_load_cache_file` (`tool_registry.py` lines 588-590):
cached tools are added in file order, but an `op_id` already present in the
in-memory map is kept, not overwritten. -/
def merge_tools (existing incoming : List (String × String)) :
    List (String × String) :=
  existing ++ incoming.filter (fun x => !(hasKey existing x.1))

/-- `ToolRegistry._load_cache_file` (`tool_registry.py` lines 569-597): an
absent file, unparsable bytes, or a document whose `tools` or `embeddings`
member is not a dict all fail without touching the registry state; a valid
document replaces `embeddings_map` and merges `tools` into `tools_map`. -/
def load_cache_file (file : Option CacheDoc) (st : RegMaps) : RegMaps × Bool :=
  match file with
  | none => (st, false)
  | some CacheDoc.corrupt => (st, false)
  | some (CacheDoc.doc tools embeddings) =>
      match tools, embeddings with
      | some tl, some el =>
          ({ tools_map := merge_tools st.tools_map tl, embeddings_map := el }, true)
      | some _, none => (st, false)
      | none, _ => (st, false)

/-- `ToolRegistry._load_cache` (`tool_registry.py` lines 549-567): try the
main snapshot; on failure try the backup, and on a successful backup load
copy the backup back over the main location. -/
def load_cache (fs : FileSys) (st : RegMaps) : FileSys × RegMaps × Bool :=
  match load_cache_file fs.cacheFile st with
  | (st1, true) => (fs, st1, true)
  | (_, false) =>
      match fs.backupFile with
      | none => (fs, st, false)
      | some b =>
          match load_cache_file (some b) st with
          | (st2, true) => ({ fs with cacheFile := some b }, st2, true)
          | (st2, false) => (fs, st2, false)

/-- `ToolRegistry._save_cache_atomic` with `_write_cache_atomic`
(`tool_registry.py` lines 611-665): refuse to write when `tools_map` is
empty; otherwise serialise both maps, copy the current main snapshot (when
present) to the backup location, and atomically rename the fresh document
over the main location. -/
def save_cache_atomic (fs : FileSys) (st : RegMaps) : FileSys :=
  if st.tools_map.isEmpty then fs
  else
    { cacheFile := some (CacheDoc.doc (some st.tools_map) (some st.embeddings_map)),
      backupFile :=
        match fs.cacheFile with
        | some old => some old
        | none => fs.backupFile }

/-! ## Semantic search (services/tool_registry.py lines 45-63, 363-368,
773-814) -/

/-- `SIMILARITY_THRESHOLD` (`tool_registry.py` line 45). -/
noncomputable def SIMILARITY_THRESHOLD : ℝ := 0.60

/-- `BLACKLIST` (`tool_registry.py` lines 54-57). -/
def BLACKLIST : List String :=
  ["post_VehicleAssignments", "get_VehicleAssignments",
   "post_Booking", "post_Batch", "get_WhatCanIDo"]

/-- `BLACKLIST_PATTERNS` (`tool_registry.py` lines 59-63). -/
def BLACKLIST_PATTERNS : List String :=
  ["batch", "excel", "export", "import", "internal",
   "count", "projectto", "searchinfo", "odata",
   "whatcanido", "multipatch"]

/-- ASCII lower-casing of one character, the relevant fragment of Python's
`str.lower` (all operation ids and patterns involved are ASCII). -/
def charToLower (c : Char) : Char :=
  if 'A' ≤ c ∧ c ≤ 'Z' then Char.ofNat (c.toNat + 32) else c

/-- Python `s.lower()` on an ASCII string, as a character list. -/
def lowerChars (s : String) : List Char :=
  s.data.map charToLower

/-- Whether the first list is a leading segment of the second. -/
def isPrefixChars : List Char → List Char → Bool
  | [], _ => true
  | _ :: _, [] => false
  | a :: as, b :: bs => a == b && isPrefixChars as bs

/-- Python's substring test `pat in hay`, on character lists. -/
def containsSub (hay pat : List Char) : Bool :=
  match hay with
  | [] => pat.isEmpty
  | c :: rest => isPrefixChars pat (c :: rest) || containsSub rest pat

/-- `ToolRegistry._is_blacklisted` (`tool_registry.py` lines 363-368): an
operation is denied when its id is in `BLACKLIST`, or when any deny pattern
occurs as a substring of the lower-cased id-and-path string. -/
def is_blacklisted (op_id : String) (path : String) : Bool :=
  BLACKLIST.contains op_id
    || BLACKLIST_PATTERNS.any
        (fun p => containsSub (lowerChars op_id ++ [' '] ++ lowerChars path) p.data)

/-- `ToolRegistry._cosine_similarity` (`tool_registry.py` lines 807-814),
with IEEE floats abstracted to reals. The two guards of the source are kept:
an empty input returns 0.0 immediately, and a zero norm (a falsy float in
`if norm_a and norm_b`) bypasses the division and returns 0.0. -/
noncomputable def cosine_similarity (a b : List ℝ) : ℝ :=
  if a = [] ∨ b = [] then 0
  else
    let dot := (List.zipWith (fun x y => x * y) a b).sum
    let norm_a := Real.sqrt ((a.map (fun x => x * x)).sum)
    let norm_b := Real.sqrt ((b.map (fun y => y * y)).sum)
    if norm_a ≠ 0 ∧ norm_b ≠ 0 then dot / (norm_a * norm_b) else 0

/-- The registry state read by `_embedding_search`: `tools_map` as an
insertion-ordered association list from operation id to the tool's `def`
payload (abstracted to `String`), and `embeddings_map` from operation id to
vector. -/
structure SearchReg where
  tools_map : List (String × String)
  embeddings_map : List (String × List ℝ)

/-- `self.embeddings_map.get(op_id)`. -/
def emb_get (m : List (String × List ℝ)) (k : String) : Option (List ℝ) :=
  (m.find? (fun x => x.1 == k)).map Prod.snd

/-- The scoring loop of `_embedding_search` (`tool_registry.py` lines
784-797): walk `tools_map` in insertion order, skip deny-listed ids, skip
ids with a missing or empty (falsy) vector, score the rest against the
query vector, and keep the candidates scoring strictly above
`SIMILARITY_THRESHOLD`. Each kept candidate records its score, its
insertion index and its tool payload. -/
noncomputable def search_candidates (reg : SearchReg) (query_vec : List ℝ) :
    List (ℝ × Nat × String) :=
  reg.tools_map.enum.filterMap (fun it =>
    if is_blacklisted it.2.1 "" then none
    else
      match emb_get reg.embeddings_map it.2.1 with
      | none => none
      | some [] => none
      | some tool_vec =>
          let score := cosine_similarity query_vec tool_vec
          if SIMILARITY_THRESHOLD < score then some (score, it.1, it.2.2) else none)

/-- The ordering realised by `scored.sort(key=lambda x: x[0], reverse=True)`
(`tool_registry.py` line 799): Python's sort is stable, so sorting by score
descending equals ordering lexicographically by score descending and then by
original (insertion) position ascending. -/
def score_order (x y : ℝ × Nat × String) : Prop :=
  y.1 < x.1 ∨ (x.1 = y.1 ∧ x.2.1 ≤ y.2.1)

noncomputable instance : DecidableRel score_order :=
  fun _ _ => Classical.dec _

instance : IsTotal (ℝ × Nat × String) score_order := by
  constructor
  intro a b
  rcases lt_trichotomy a.1 b.1 with h | h | h
  · exact Or.inr (Or.inl h)
  · rcases le_total a.2.1 b.2.1 with h2 | h2
    · exact Or.inl (Or.inr ⟨h, h2⟩)
    · exact Or.inr (Or.inr ⟨h.symm, h2⟩)
  · exact Or.inl (Or.inl h)

instance : IsTrans (ℝ × Nat × String) score_order := by
  constructor
  rintro a b c (h1 | ⟨h1, h1i⟩) (h2 | ⟨h2, h2i⟩)
  · exact Or.inl (h2.trans h1)
  · exact Or.inl (h2 ▸ h1)
  · exact Or.inl (h1 ▸ h2)
  · exact Or.inr ⟨h1.trans h2, h1i.trans h2i⟩

/-- `ToolRegistry._embedding_search` (`tool_registry.py` lines 773-805):
when the query embedding is unavailable return no results; otherwise score
and filter the candidates, sort them by score descending (stable, hence
`score_order`), truncate to `limit`, and return the tool payloads. -/
noncomputable def embedding_search (reg : SearchReg) (query_vec : Option (List ℝ))
    (limit : Nat) : List String :=
  match query_vec with
  | none => []
  | some qv =>
      let scored := search_candidates reg qv
      let sorted := List.insertionSort score_order scored
      (sorted.take limit).map (fun x => x.2.2)

/-! ## Scenario states for the dead-letter walkthrough -/

/-- One failed processing cycle: the worker claims the oldest inbound entry
and its processing throws, running the failure branch of the transaction
(Redis itself reachable). -/
def fail_cycle (st : SysState) (err now : String) : SysState :=
  match st.stream with
  | [] => st
  | (msgId, p) :: _ =>
      (process_single_message_transaction
        { st with pendingIds := st.pendingIds ++ [msgId] } msgId p
        (Except.error err) true now).1.1

/-- The scenario's initial enqueue of `{sender: "+385900000", text: "status?"}`
into an empty system. -/
def scenario_s1 : SysState :=
  enqueue_inbound ⟨[], [], [], [], none, 0⟩ "+385900000" "status?" "m-1" "t0"

/-- State after the first failed processing of the scenario entry. -/
def scenario_s2 : SysState := fail_cycle scenario_s1 "boom" "t1"

/-- State after the first auto-heal call. -/
def scenario_s3 : SysState := auto_heal_dlq scenario_s2

/-- State after one more failed cycle (failure then auto-heal). -/
def scenario_s4 : SysState := auto_heal_dlq (fail_cycle scenario_s3 "boom" "t2")

/-- State after two more failed cycles. -/
def scenario_s5 : SysState := auto_heal_dlq (fail_cycle scenario_s4 "boom" "t3")

/-- State after three more failed cycles. -/
def scenario_s6 : SysState := auto_heal_dlq (fail_cycle scenario_s5 "boom" "t4")

/-! ## Claims about the inbound pipeline -/

/-- C1: for every inbound stream entry whose processing raises any
exception, the worker first pushes the payload (wrapped with failure
metadata) to dead-letter storage and then acknowledges and deletes the
entry, so the entry is left neither pending nor in the stream, and the
transaction itself completes without raising. -/
theorem claim1_failure_dlq_then_ack (st : SysState) (msgId : Nat) (payload : Payload)
    (e now : String) :
    (process_single_message_transaction st msgId payload (Except.error e) true now).1.2
      = [WEvent.storeDlq payload e, WEvent.ackEv msgId, WEvent.delEv msgId]
    ∧ (process_single_message_transaction st msgId payload
        (Except.error e) true now).1.1.dlqInbound
      = st.dlqInbound ++ [RawDlq.good (mk_dlq_entry payload e now)]
    ∧ msgId ∉ (process_single_message_transaction st msgId payload
        (Except.error e) true now).1.1.pendingIds
    ∧ (∀ p, (msgId, p) ∉ (process_single_message_transaction st msgId payload
        (Except.error e) true now).1.1.stream)
    ∧ (process_single_message_transaction st msgId payload (Except.error e) true now).2
      = Except.ok () := by
  refine ⟨rfl, rfl, ?_, ?_, rfl⟩
  · simp [process_single_message_transaction, store_inbound_dlq, xack, xdel,
      List.mem_filter]
  · intro p
    simp [process_single_message_transaction, store_inbound_dlq, xack, xdel,
      List.mem_filter]

/-- C1 witness: the guarantee evaluated on a concrete failing entry. -/
theorem claim1_witness :
    (process_single_message_transaction ⟨[(7, ⟨"s", "x", "m", "t", 0⟩)], [7], [], [], none, 8⟩
        7 ⟨"s", "x", "m", "t", 0⟩ (Except.error "boom") true "t1").1.1.dlqInbound
      = [RawDlq.good (mk_dlq_entry ⟨"s", "x", "m", "t", 0⟩ "boom" "t1")]
    ∧ 7 ∉ (process_single_message_transaction ⟨[(7, ⟨"s", "x", "m", "t", 0⟩)], [7], [], [], none, 8⟩
        7 ⟨"s", "x", "m", "t", 0⟩ (Except.error "boom") true "t1").1.1.pendingIds := by
  have h := claim1_failure_dlq_then_ack ⟨[(7, ⟨"s", "x", "m", "t", 0⟩)], [7], [], [], none, 8⟩
    7 ⟨"s", "x", "m", "t", 0⟩ "boom" "t1"
  exact ⟨h.2.1, h.2.2.1⟩

/-- C2: one auto-heal invocation pops exactly the first (up to) 10
dead-letter records in FIFO order; each parsable record with retry count
below 3 is re-appended to the inbound stream with the count incremented by
exactly one, each record with retry count at least 3 is appended to
permanent storage (refreshing its 14-day TTL) and not re-queued, and each
unparsable record is appended to permanent storage directly; consequently
every re-queued payload carries a retry count of at most 3. -/
theorem claim2_auto_heal_bounded_retries (st : SysState) :
    (auto_heal_dlq st).dlqInbound = st.dlqInbound.drop 10
    ∧ (auto_heal_dlq st).dlqPermanent
        = st.dlqPermanent ++ (st.dlqInbound.take 10).filter heal_target
    ∧ (auto_heal_dlq st).stream.map Prod.snd
        = st.stream.map Prod.snd ++ (st.dlqInbound.take 10).filterMap heal_requeue
    ∧ (auto_heal_dlq st).permanentTtl
        = (if (st.dlqInbound.take 10).any heal_promote then some (86400 * 14)
           else st.permanentTtl)
    ∧ ((st.dlqInbound.take 10).filterMap heal_requeue).all
        (fun p => decide (p.retry_count ≤ 3)) = true := by
  have h := auto_heal_loop_spec 10 st
  refine ⟨h.1, h.2.1, h.2.2.1, h.2.2.2, ?_⟩
  rw [List.all_eq_true]
  intro p hp
  rw [List.mem_filterMap] at hp
  obtain ⟨raw, _, hreq⟩ := hp
  cases raw with
  | corrupt s => simp [heal_requeue] at hreq
  | good e =>
      by_cases hrc : 3 ≤ e.original_payload.retry_count
      · simp [heal_requeue, hrc] at hreq
      · simp only [heal_requeue, if_neg hrc, Option.some.injEq] at hreq
        subst hreq
        simp only [decide_eq_true_eq]
        omega

/-- C3 counterexample: running the scenario literally as the claim states
it — first failure, one auto-heal, then two more failed cycles — leaves the
entry re-queued on the inbound stream with retry count 3; the permanent
dead-letter store is still empty, so the entry has not landed there after
two more cycles. -/
theorem claim3_counterexample :
    scenario_s5.dlqPermanent = [] ∧
    scenario_s5.stream.map (fun en => en.2.retry_count) = [3] := by
  constructor <;> rfl

/-- C3 (amended): after the first failure the dead-letter list holds exactly
one record with retry count 0; one auto-heal re-queues it with retry count
1; after three more failed cycles (not two) the entry lands in permanent
dead-letter storage, the inbound stream and inbound dead-letter list are
empty, and a further auto-heal invocation changes nothing, so the entry is
never retried again. -/
theorem claim3_amended_four_cycles :
    scenario_s2.dlqInbound
      = [RawDlq.good (mk_dlq_entry ⟨"+385900000", "status?", "m-1", "t0", 0⟩ "boom" "t1")]
    ∧ scenario_s3.stream.map (fun en => en.2.retry_count) = [1]
    ∧ scenario_s6.dlqPermanent
      = [RawDlq.good (mk_dlq_entry ⟨"+385900000", "status?", "m-1", "t0", 3⟩ "boom" "t4")]
    ∧ scenario_s6.stream = []
    ∧ scenario_s6.dlqInbound = []
    ∧ auto_heal_dlq scenario_s6 = scenario_s6 := by
  refine ⟨rfl, rfl, rfl, rfl, rfl, rfl⟩

/-- Key lemma for C4: `ZADD` followed by a score lookup of the same member
finds exactly the score just written. -/
theorem zscore_zadd (zs : List (OutPayload × ℚ)) (m : OutPayload) (sc : ℚ) :
    zscore (zadd zs m sc) m = some sc := by
  induction zs with
  | nil => simp [zscore, zadd]
  | cons hd tl ih =>
      by_cases h : hd.1 = m
      · simp only [zadd, zscore] at ih ⊢
        simp [List.filter_cons, h, ih]
      · simp only [zadd, zscore] at ih ⊢
        simp [List.filter_cons, List.find?, h, ih]

/-- C4: `schedule_retry` increments `attempts`; when the incremented value
reaches 5 the payload is dropped (the scheduled set is unchanged);
otherwise the payload, carrying the incremented value, is inserted into
the scheduled set with execute time `now + 2 ^ attempts` seconds, computed
from the incremented value. -/
theorem claim4_schedule_retry_backoff (zs : List (OutPayload × ℚ)) (now : ℚ)
    (p : OutPayload) :
    (5 ≤ p.attempts + 1 → schedule_retry zs now p = zs)
    ∧ (p.attempts + 1 < 5 →
        zscore (schedule_retry zs now p) { p with attempts := p.attempts + 1 }
          = some (now + 2 ^ (p.attempts + 1))) := by
  constructor
  · intro h
    simp only [schedule_retry]
    rw [if_pos h]
  · intro h
    simp only [schedule_retry]
    rw [if_neg (by omega : ¬ 5 ≤ p.attempts + 1)]
    exact zscore_zadd zs { p with attempts := p.attempts + 1 } (now + 2 ^ (p.attempts + 1))

/-- C4 witness: a payload at 4 prior attempts is dropped; a fresh payload is
scheduled 2 seconds out with `attempts = 1` stored. -/
theorem claim4_witness :
    schedule_retry [] 0 ⟨"t", "x", "c", 4⟩ = []
    ∧ zscore (schedule_retry [] 0 ⟨"t", "x", "c", 0⟩) ⟨"t", "x", "c", 1⟩ = some 2 := by
  constructor
  · exact (claim4_schedule_retry_backoff [] 0 ⟨"t", "x", "c", 4⟩).1 (by decide)
  · have h := (claim4_schedule_retry_backoff [] 0 ⟨"t", "x", "c", 0⟩).2 (by decide)
    simpa using h

/-- C5 counterexample: when the underlying `RPUSH` fails, `store_inbound_dlq`
raises to its caller (there is no exception handler in its body), refuting
"never raises even when the underlying store operation fails". -/
theorem claim5_counterexample :
    store_inbound_dlq false [] ⟨"s", "x", "m", "t", 0⟩ "err" "t1"
      = Except.error "redis unreachable" := rfl

/-- C5 (amended): `store_inbound_dlq` wraps the payload with failure metadata
`{original_payload, error, failed_at}` and appends it to dead-letter
storage; however, when the underlying store operation fails, the exception
propagates to the caller rather than being swallowed. -/
theorem claim5_amended_store_dlq (dlq : List RawDlq) (p : Payload) (e now : String) :
    store_inbound_dlq true dlq p e now
      = Except.ok (dlq ++ [RawDlq.good
          { original_payload := p, error := e, failed_at := now }])
    ∧ store_inbound_dlq false dlq p e now = Except.error "redis unreachable" :=
  ⟨rfl, rfl⟩

/-! ## Claims about snapshot persistence, retry promotion and the gateway -/

/-- Merging a cached tools map into an empty in-memory map reproduces the
cached map exactly. -/
theorem merge_tools_nil (tl : List (String × String)) : merge_tools [] tl = tl := by
  simp [merge_tools, hasKey]

/-- C7: persisting a valid registry state (non-empty maps) and loading it
back into a fresh registry reconstructs exactly the persisted descriptor
and vector maps; and when the primary snapshot is corrupted — unparsable
or structurally invalid — loading falls back to the backup file and returns
the backed-up state (restoring it over the primary). -/
theorem claim7_snapshot_round_trip (st : RegMaps) (fs : FileSys)
    (htools : st.tools_map ≠ []) (_hembs : st.embeddings_map ≠ []) :
    ((load_cache (save_cache_atomic fs st) ⟨[], []⟩).2.1 = st
      ∧ (load_cache (save_cache_atomic fs st) ⟨[], []⟩).2.2 = true)
    ∧ (∀ tl el,
        (load_cache ⟨some CacheDoc.corrupt, some (CacheDoc.doc (some tl) (some el))⟩
            ⟨[], []⟩)
          = (⟨some (CacheDoc.doc (some tl) (some el)),
              some (CacheDoc.doc (some tl) (some el))⟩, ⟨tl, el⟩, true)
        ∧ (load_cache ⟨some (CacheDoc.doc none none), some (CacheDoc.doc (some tl) (some el))⟩
            ⟨[], []⟩)
          = (⟨some (CacheDoc.doc (some tl) (some el)),
              some (CacheDoc.doc (some tl) (some el))⟩, ⟨tl, el⟩, true)) := by
  have hempty : st.tools_map.isEmpty = false := by
    cases h : st.tools_map with
    | nil => exact absurd h htools
    | cons a l => rfl
  constructor
  · constructor
    · simp [save_cache_atomic, hempty, load_cache, load_cache_file, merge_tools_nil]
    · simp [save_cache_atomic, hempty, load_cache, load_cache_file, merge_tools_nil]
  · intro tl el
    constructor
    · simp [load_cache, load_cache_file, merge_tools_nil]
    · simp [load_cache, load_cache_file, merge_tools_nil]

/-- C7 witness: round trip and corruption fallback on a concrete one-tool
state. -/
theorem claim7_witness :
    (load_cache
        (save_cache_atomic ⟨none, none⟩ ⟨[("a", "T")], [("a", [(1 : ℚ)])]⟩)
        ⟨[], []⟩).2.1
      = ⟨[("a", "T")], [("a", [(1 : ℚ)])]⟩
    ∧ (load_cache ⟨some CacheDoc.corrupt,
          some (CacheDoc.doc (some [("b", "U")]) (some []))⟩ ⟨[], []⟩)
      = (⟨some (CacheDoc.doc (some [("b", "U")]) (some [])),
          some (CacheDoc.doc (some [("b", "U")]) (some []))⟩, ⟨[("b", "U")], []⟩, true) := by
  have h := claim7_snapshot_round_trip ⟨[("a", "T")], [("a", [(1 : ℚ)])]⟩ ⟨none, none⟩
    (by decide) (by decide)
  exact ⟨h.1.1, (h.2 [("b", "U")] []).1⟩

/-- Removing a member from the modelled sorted set leaves no element with
that member. -/
theorem any_filter_ne_eq_false (zs : List (OutPayload × ℚ)) (m : OutPayload) :
    (zs.filter (fun x => x.1 != m)).any (fun x => x.1 == m) = false := by
  rw [List.any_eq_false]
  intro x hx
  rw [List.mem_filter] at hx
  simpa using hx.2

/-- Every member returned by the modelled `ZRANGEBYSCORE` is carried by the
set with a score inside the requested range. -/
theorem mem_zrangebyscore {zs : List (OutPayload × ℚ)} {mn mx : ℚ} {num : Nat}
    {t : OutPayload} (h : t ∈ zrangebyscore zs mn mx num) :
    ∃ s, (t, s) ∈ zs ∧ mn ≤ s ∧ s ≤ mx := by
  simp only [zrangebyscore] at h
  have h1 := List.mem_of_mem_take h
  rw [List.mem_map] at h1
  obtain ⟨x, hx, hxt⟩ := h1
  have hx2 : x ∈ (zs.filter (fun x => decide (mn ≤ x.2) && decide (x.2 ≤ mx))) :=
    (List.perm_insertionSort _ _).mem_iff.mp hx
  rw [List.mem_filter, Bool.and_eq_true, decide_eq_true_eq, decide_eq_true_eq] at hx2
  refine ⟨x.2, ?_, hx2.2.1, hx2.2.2⟩
  have : (t, x.2) = x := by
    cases x
    simp_all
  rw [this]
  exact hx2.1

/-- C8: the retry poller promotes an entry only when its execute-at score
is at most `now` (and at least 0), and only after `ZREM` confirmed the
entry was still present — the promoted member is gone from the resulting
set state; and a second poller running against the resulting state promotes
nothing, so no entry is promoted twice. -/
theorem claim8_retry_promotion (view current : List (OutPayload × ℚ)) (now : ℚ) :
    (∀ t, (process_retries view current now).2 = some t →
        (∃ s, (t, s) ∈ view ∧ 0 ≤ s ∧ s ≤ now)
        ∧ current.any (fun x => x.1 == t) = true
        ∧ (process_retries view current now).1.any (fun x => x.1 == t) = false)
    ∧ (∀ cur2 t, process_retries view current now = (cur2, some t) →
        (process_retries view cur2 now).2 = none) := by
  rcases hzr : zrangebyscore view 0 now 1 with _ | ⟨t0, rest⟩
  · constructor
    · intro t ht
      rw [process_retries, hzr] at ht
      simp at ht
    · intro cur2 t ht
      rw [process_retries, hzr] at ht
      simp at ht
  · have hmem : t0 ∈ zrangebyscore view 0 now 1 := by
      rw [hzr]
      exact List.mem_cons_self t0 rest
    rcases hany : current.any (fun x => x.1 == t0) with _ | _
    · constructor
      · intro t ht
        rw [process_retries, hzr] at ht
        simp only [zrem, hany] at ht
        simp at ht
      · intro cur2 t ht
        rw [process_retries, hzr] at ht
        simp only [zrem, hany] at ht
        simp at ht
    · constructor
      · intro t ht
        rw [process_retries, hzr] at ht
        simp only [zrem, hany, Option.some.injEq] at ht
        subst ht
        refine ⟨mem_zrangebyscore hmem, hany, ?_⟩
        rw [process_retries, hzr]
        simp only [zrem, hany]
        exact any_filter_ne_eq_false current t0
      · intro cur2 t ht
        rw [process_retries, hzr] at ht
        simp only [zrem, hany, Prod.mk.injEq, Option.some.injEq] at ht
        obtain ⟨hcur, hts⟩ := ht
        rw [process_retries, hzr]
        have : cur2.any (fun x => x.1 == t0) = false := by
          rw [← hcur]
          exact any_filter_ne_eq_false current t0
        simp [zrem, this]

/-- C8 witness: a concrete due entry is promoted exactly once; a second
poller tick against the post-removal state promotes nothing. -/
theorem claim8_witness :
    ((⟨"num", "hi", "c", 1⟩ : OutPayload), (1 : ℚ)) ∈ [((⟨"num", "hi", "c", 1⟩ : OutPayload), (1 : ℚ))]
    ∧ (process_retries [((⟨"num", "hi", "c", 1⟩ : OutPayload), (1 : ℚ))] [] 2).2 = none := by
  have h := claim8_retry_promotion
    [((⟨"num", "hi", "c", 1⟩ : OutPayload), (1 : ℚ))]
    [((⟨"num", "hi", "c", 1⟩ : OutPayload), (1 : ℚ))] 2
  have hp := (h.1 ⟨"num", "hi", "c", 1⟩ (by decide)).2.1
  refine ⟨by simp, h.2 [] ⟨"num", "hi", "c", 1⟩ (by decide)⟩

/-- C9 counterexample: with every attempt answered 401, the gateway performs
two token refresh-and-retry rounds — not exactly one — before returning the
structured 401 error. -/
theorem claim9_counterexample :
    execute_request (fun _ => HttpResult.status 401 "denied")
      = (ReqOutcome.errorResult (some 401) "denied", 2)
    ∧ (execute_request (fun _ => HttpResult.status 401 "denied")).2 ≠ 1 := by
  constructor
  · rfl
  · decide

/-- C9 (amended): on a 401 the gateway refreshes the token and retries; a
single 401 followed by a success costs exactly one refresh-and-retry, but a
second consecutive 401 triggers a second refresh-and-retry, and only a 401
on the third attempt makes the gateway give up and return the structured
error result, with two refreshes in total. -/
theorem claim9_amended_refresh_twice (rs : Nat → HttpResult) (b0 b1 b2 : String) :
    (rs 0 = HttpResult.status 401 b0 → rs 1 = HttpResult.ok b1 →
        execute_request rs = (ReqOutcome.success b1, 1))
    ∧ (rs 0 = HttpResult.status 401 b0 → rs 1 = HttpResult.status 401 b1 →
        rs 2 = HttpResult.status 401 b2 →
        execute_request rs = (ReqOutcome.errorResult (some 401) b2, 2)) := by
  constructor
  · intro h0 h1
    simp [execute_request, execute_request_from, h0, h1, max_retries]
  · intro h0 h1 h2
    simp [execute_request, execute_request_from, h0, h1, h2, max_retries]

/-- C9 witness: the amended behaviour evaluated on a concrete 401-then-ok
response sequence and on a persistent-401 sequence. -/
theorem claim9_witness :
    execute_request (fun n => if n = 0 then HttpResult.status 401 "a" else HttpResult.ok "b")
      = (ReqOutcome.success "b", 1)
    ∧ execute_request (fun _ => HttpResult.status 401 "x")
      = (ReqOutcome.errorResult (some 401) "x", 2) := by
  constructor
  · exact (claim9_amended_refresh_twice
      (fun n => if n = 0 then HttpResult.status 401 "a" else HttpResult.ok "b")
      "a" "b" "b").1 rfl rfl
  · exact (claim9_amended_refresh_twice (fun _ => HttpResult.status 401 "x")
      "x" "x" "x").2 rfl rfl rfl

/-! ## Claims about cosine similarity and semantic search -/

/-- C10: the cosine-similarity function is total and safe. Totality is
inherent in the embedding (every Lean function is total, mirroring the fact
that the Python body can reach no division once a guard fires); the
substantive content proved here is that both guards return exactly 0.0: an
empty input on either side, or a zero norm on either side (the falsy-float
check `if norm_a and norm_b`), short-circuits the division. -/
theorem claim10_cosine_total (a b : List ℝ) :
    (a = [] ∨ b = [] → cosine_similarity a b = 0)
    ∧ (Real.sqrt ((a.map (fun x => x * x)).sum) = 0
        ∨ Real.sqrt ((b.map (fun y => y * y)).sum) = 0 →
        cosine_similarity a b = 0) := by
  constructor
  · intro h
    simp only [cosine_similarity]
    rw [if_pos h]
  · intro h
    by_cases hab : a = [] ∨ b = []
    · simp only [cosine_similarity]
      rw [if_pos hab]
    · simp only [cosine_similarity]
      rw [if_neg hab]
      have hguard : ¬ (Real.sqrt ((a.map (fun x => x * x)).sum) ≠ 0
            ∧ Real.sqrt ((b.map (fun y => y * y)).sum) ≠ 0) := by
        rcases h with h | h
        · exact fun hc => hc.1 h
        · exact fun hc => hc.2 h
      rw [if_neg hguard]

/-- C10 witness: an empty vector and a zero vector both score exactly 0. -/
theorem claim10_witness :
    cosine_similarity [] [(1 : ℝ)] = 0
    ∧ cosine_similarity [(0 : ℝ)] [(1 : ℝ)] = 0 := by
  constructor
  · exact (claim10_cosine_total [] [1]).1 (Or.inl rfl)
  · refine (claim10_cosine_total [0] [1]).2 (Or.inl ?_)
    norm_num [Real.sqrt_zero]

/-- The query norm appearing in the worked search example. -/
theorem s82_pos : (0 : ℝ) < Real.sqrt 0.82 :=
  Real.sqrt_pos.mpr (by norm_num)

/-- Square of the example query norm. -/
theorem s82_sq : Real.sqrt 0.82 ^ 2 = (0.82 : ℝ) :=
  Real.sq_sqrt (by norm_num)

/-- Upper bound on the example query norm. -/
theorem s82_lt_one : Real.sqrt 0.82 < 1 := by
  nlinarith [s82_sq, s82_pos]

/-- Lower bound on the example query norm. -/
theorem s82_gt : (0.8 : ℝ) < Real.sqrt 0.82 := by
  nlinarith [s82_sq, s82_pos]

/-- Cosine similarity of the example query against the first descriptor. -/
theorem cos_d1 : cosine_similarity [0.9, 0.1] [1, 0] = 0.9 / Real.sqrt 0.82 := by
  have hnz : Real.sqrt 0.82 ≠ 0 := ne_of_gt s82_pos
  simp only [cosine_similarity]
  rw [if_neg (by simp : ¬ (([0.9, 0.1] : List ℝ) = [] ∨ ([1, 0] : List ℝ) = []))]
  norm_num [Real.sqrt_one, hnz]

/-- Cosine similarity of the example query against the second descriptor. -/
theorem cos_d2 : cosine_similarity [0.9, 0.1] [0, 1] = 0.1 / Real.sqrt 0.82 := by
  have hnz : Real.sqrt 0.82 ≠ 0 := ne_of_gt s82_pos
  simp only [cosine_similarity]
  rw [if_neg (by simp : ¬ (([0.9, 0.1] : List ℝ) = [] ∨ ([0, 1] : List ℝ) = []))]
  norm_num [Real.sqrt_one, hnz]

/-- The first descriptor scores strictly above the threshold. -/
theorem score_d1_gt : SIMILARITY_THRESHOLD < cosine_similarity [0.9, 0.1] [1, 0] := by
  rw [cos_d1]
  simp only [SIMILARITY_THRESHOLD]
  rw [lt_div_iff₀ s82_pos]
  nlinarith [s82_lt_one, s82_pos]

/-- The second descriptor scores strictly below the threshold. -/
theorem score_d2_lt : cosine_similarity [0.9, 0.1] [0, 1] < SIMILARITY_THRESHOLD := by
  rw [cos_d2]
  simp only [SIMILARITY_THRESHOLD]
  rw [div_lt_iff₀ s82_pos]
  nlinarith [s82_gt]

/-- The two-descriptor registry of the worked search example: orthogonal
embedding vectors `[1,0]` and `[0,1]`. -/
noncomputable def demoReg : SearchReg :=
  ⟨[("op1", "d1"), ("op2", "d2")], [("op1", [1, 0]), ("op2", [0, 1])]⟩

/-- On the example registry the scoring loop keeps exactly the first
descriptor: the second one falls below the threshold. -/
theorem demo_candidates_eq :
    search_candidates demoReg [0.9, 0.1]
      = [(cosine_similarity [0.9, 0.1] [1, 0], 0, "d1")] := by
  have ht1 : (SIMILARITY_THRESHOLD < cosine_similarity [0.9, 0.1] [1, 0]) = True :=
    eq_true score_d1_gt
  have ht2 : (SIMILARITY_THRESHOLD < cosine_similarity [0.9, 0.1] [0, 1]) = False :=
    eq_false (not_lt.mpr (le_of_lt score_d2_lt))
  simp only [search_candidates, demoReg]
  rw [show ([("op1", "d1"), ("op2", "d2")]).enum
      = [(0, ("op1", "d1")), (1, ("op2", "d2"))] from rfl]
  rw [List.filterMap_cons, List.filterMap_cons, List.filterMap_nil]
  simp only [show is_blacklisted "op1" "" = false from rfl,
    show is_blacklisted "op2" "" = false from rfl,
    show emb_get [("op1", [(1 : ℝ), 0]), ("op2", [(0 : ℝ), 1])] "op1"
      = some [1, 0] from rfl,
    show emb_get [("op1", [(1 : ℝ), 0]), ("op2", [(0 : ℝ), 1])] "op2"
      = some [0, 1] from rfl,
    Bool.false_eq_true, if_false, ht1, ht2, if_true]

/-- On the example registry the full search returns exactly the first
descriptor's payload. -/
theorem demo_search_eq :
    embedding_search demoReg (some [0.9, 0.1]) 5 = ["d1"] := by
  simp only [embedding_search]
  rw [demo_candidates_eq]
  simp [List.insertionSort]

/-- C6: semantic search returns at most `topK` results; everything returned
comes from a descriptor that is not deny-listed, has a (non-empty) indexed
vector, and scores strictly above the 0.60 threshold — so deny-listed and
below-threshold descriptors are excluded even when they would otherwise be
in the top-K; the scored candidates are arranged descending by score with
ties broken by insertion order (`score_order`, the order realised by
Python's stable sort); and on the worked example with orthogonal vectors
`[1,0]`, `[0,1]` and query `[0.9,0.1]` the first descriptor ranks strictly
above the second, which falls below the threshold and is excluded. -/
theorem claim6_semantic_search (reg : SearchReg) (qv : List ℝ) (limit : Nat) :
    (embedding_search reg (some qv) limit).length ≤ limit
    ∧ (∀ d, d ∈ embedding_search reg (some qv) limit →
        ∃ idx op_id vec, (idx, (op_id, d)) ∈ reg.tools_map.enum
          ∧ is_blacklisted op_id "" = false
          ∧ emb_get reg.embeddings_map op_id = some vec
          ∧ SIMILARITY_THRESHOLD < cosine_similarity qv vec)
    ∧ List.Sorted score_order (List.insertionSort score_order (search_candidates reg qv))
    ∧ (cosine_similarity [0.9, 0.1] [0, 1] < SIMILARITY_THRESHOLD
        ∧ cosine_similarity [0.9, 0.1] [0, 1] < cosine_similarity [0.9, 0.1] [1, 0]
        ∧ embedding_search demoReg (some [0.9, 0.1]) 5 = ["d1"]) := by
  refine ⟨?_, ?_, List.sorted_insertionSort score_order _,
    score_d2_lt, ?_, demo_search_eq⟩
  · simp only [embedding_search]
    rw [List.length_map]
    exact List.length_take_le limit _
  · intro d hd
    simp only [embedding_search, List.mem_map] at hd
    obtain ⟨x, hx, hxd⟩ := hd
    have hx1 : x ∈ List.insertionSort score_order (search_candidates reg qv) :=
      List.mem_of_mem_take hx
    have hx2 : x ∈ search_candidates reg qv :=
      (List.perm_insertionSort _ _).mem_iff.mp hx1
    simp only [search_candidates, List.mem_filterMap] at hx2
    obtain ⟨it, hit, hfit⟩ := hx2
    by_cases hbl : is_blacklisted it.2.1 "" = true
    · rw [if_pos hbl] at hfit
      exact absurd hfit (by simp)
    · rw [if_neg hbl] at hfit
      cases hg : emb_get reg.embeddings_map it.2.1 with
      | none =>
          rw [hg] at hfit
          simp at hfit
      | some v =>
          cases v with
          | nil =>
              rw [hg] at hfit
              simp at hfit
          | cons h0 tv =>
              rw [hg] at hfit
              have hfit2 : (if SIMILARITY_THRESHOLD < cosine_similarity qv (h0 :: tv)
                  then some (cosine_similarity qv (h0 :: tv), it.1, it.2.2)
                  else none) = some x := hfit
              by_cases hth : SIMILARITY_THRESHOLD < cosine_similarity qv (h0 :: tv)
              · rw [if_pos hth] at hfit2
                have hx3 : x = (cosine_similarity qv (h0 :: tv), it.1, it.2.2) := by
                  simpa using hfit2.symm
                refine ⟨it.1, it.2.1, h0 :: tv, ?_,
                  Bool.eq_false_iff.mpr hbl, hg, hth⟩
                have hdit : d = it.2.2 := by
                  rw [← hxd, hx3]
                have hit2 : (it.1, (it.2.1, it.2.2)) = it := rfl
                rw [hdit, hit2]
                exact hit
              · rw [if_neg hth] at hfit2
                simp at hfit2
  · rw [cos_d1, cos_d2]
    rw [div_lt_div_iff_of_pos_right s82_pos]
    norm_num

/-- C6 witness: the membership guarantee instantiated on the worked
example's returned descriptor. -/
theorem claim6_witness :
    ∃ idx op_id vec, (idx, (op_id, "d1")) ∈ demoReg.tools_map.enum
      ∧ is_blacklisted op_id "" = false
      ∧ emb_get demoReg.embeddings_map op_id = some vec
      ∧ SIMILARITY_THRESHOLD < cosine_similarity [0.9, 0.1] vec := by
  have h := claim6_semantic_search demoReg [0.9, 0.1] 5
  refine h.2.1 "d1" ?_
  rw [h.2.2.2.2.2]
  simp

end WhatsappService
